import Mathlib

/-!
Verification of the weather worker (`src/worker.ts`, canonical) and its
variant (`unnamed/part_000`, strict index policy) against the repository
specification.

Modelling conventions (shallow embedding):
* JS numbers carry only decimal literals here and are never subjected to
  arithmetic by the worker, so they are modelled as exact rationals `ℚ`.
* Effects are explicit inputs: the single outbound HTTP call is an
  `Upstream` outcome value, the KV cell is a `CacheCell` value threaded
  through the handlers, wall-clock time is a `now : String` argument, and
  KV read/write faults are boolean fault flags.
* Each `try { ... } catch { ... }` of the source is baked in: every path
  that throws inside a guarded region is mapped to the value the `catch`
  block produces (`null`, i.e. `none`, for the fetcher and the cache
  accessors).  The resulting Lean functions are total, which is exactly
  the "never throws past its own boundary" behaviour of the source.
* JSON is modelled at the level of parsed values (`Json` below);
  `JSON.stringify` followed by `JSON.parse` is the identity at this level,
  which is the round-trip behaviour for the records this worker stores.
-/

/-- `WeatherAPIResponse.current_weather` member of the upstream body
(`worker.ts` lines 8-12).  The TS type lists both members as required, but
no code path ever checks `data.current_weather.temperature` for runtime
absence (the guard at `worker.ts` lines 52-61 only tests the
`current_weather` object itself and the three hourly arrays), so a parsed
reading may lack it: `temperature` is an `Option`, `none` standing for
`undefined`.  `time` stays mandatory: a reading whose `time` is
`undefined` can never produce a record in either variant (no string is
`=== undefined`, so the exact match fails, and the fallback's
`new Date(undefined).toISOString()` throws into the `catch`), so the
missing-`time` case adds only more `null` outcomes and is out of the
modelled input space. -/
structure CurrentWeather where
  temperature : Option ℚ
  time : String
deriving DecidableEq

/-- `WeatherAPIResponse.hourly` member of the upstream body
(`worker.ts` lines 13-17).  Although the TS type lists the three arrays as
required, the code re-checks each for runtime absence, so each field is an
`Option` here. -/
structure Hourly where
  time : Option (List String)
  precipitation : Option (List ℚ)
  cloudcover : Option (List ℚ)
deriving DecidableEq

/-- Parsed upstream body (`worker.ts` lines 8-18); both members are
optional in the TS interface. -/
structure WeatherAPIResponse where
  current_weather : Option CurrentWeather
  hourly : Option Hourly
deriving DecidableEq

/-- `CachedWeatherData` (`worker.ts` lines 20-26): the WeatherRecord of the
spec, the only persisted/returned entity.  `temperature` is copied from the
unchecked `data.current_weather.temperature` at `worker.ts` line 96, so the
object the code builds can carry `temperature: undefined`; the field is an
`Option` for that reason.  The other four fields are always defined on
every construction path (the two hourly values pass an explicit
`=== undefined` check, the timestamp is the current-weather label string,
and `lastUpdated` is `new Date().toISOString()`). -/
structure CachedWeatherData where
  temperature : Option ℚ
  precipitation : ℚ
  cloudcover : ℚ
  timestamp : String
  lastUpdated : String
deriving DecidableEq

/-- Outcome of the one outbound `fetch(apiUrl)` call (`worker.ts` line 44):
either the transport throws, or a response arrives with an `ok` flag and a
body that either parses (`response.json()` succeeds, giving a
`WeatherAPIResponse`) or throws on parse (`none`). -/
inductive Upstream where
  | transportError
  | resp (ok : Bool) (body : Option WeatherAPIResponse)
deriving DecidableEq

/-- JSON values, as produced by `JSON.parse` (no `undefined`, no `NaN`). -/
inductive Json where
  | null
  | bool (b : Bool)
  | num (q : ℚ)
  | str (s : String)
  | arr (elems : List Json)
  | obj (fields : List (String × Json))

/-- First-match field lookup in a JSON object, i.e. JS property access on a
parsed object. -/
def lookupField : List (String × Json) → String → Option Json
  | [], _ => none
  | (k, v) :: rest, key => if k == key then some v else lookupField rest key

/-- JS property access `j[key]` on a parsed JSON value (`undefined`,
i.e. `none`, off an object or missing key). -/
def Json.getField : Json → String → Option Json
  | .obj fields, key => lookupField fields key
  | _, _ => none

def Json.isNum : Json → Bool
  | .num _ => true
  | _ => false

def Json.isStr : Json → Bool
  | .str _ => true
  | _ => false

/-- JavaScript truthiness of a parsed JSON value, as consulted by
`if (!weatherData)` in `worker.ts` line 156. -/
def jsTruthy : Json → Bool
  | .null => false
  | .bool b => b
  | .num q => !(q == 0)
  | .str s => !(s == "")
  | .arr _ => true
  | .obj _ => true

/-- `JSON.stringify` drops a property whose value is `undefined`: a record
with `temperature: undefined` serializes to a four-field object. -/
def encodeTempField : Option ℚ → List (String × Json)
  | some q => [("temperature", Json.num q)]
  | none => []

/-- `JSON.stringify` of a `CachedWeatherData`, at the level of parsed JSON
values (`worker.ts` line 128 and line 172); an `undefined` temperature is
dropped from the output object. -/
def encodeRecord (r : CachedWeatherData) : Json :=
  .obj (encodeTempField r.temperature ++
        [("precipitation", .num r.precipitation),
         ("cloudcover", .num r.cloudcover),
         ("timestamp", .str r.timestamp),
         ("lastUpdated", .str r.lastUpdated)])

/-- The spec's §3 record invariant on a JSON value: all five WeatherRecord
fields are present and carry the declared kind of value. -/
def hasRecordFields (j : Json) : Bool :=
  ((j.getField "temperature").map Json.isNum).getD false &&
  ((j.getField "precipitation").map Json.isNum).getD false &&
  ((j.getField "cloudcover").map Json.isNum).getD false &&
  ((j.getField "timestamp").map Json.isStr).getD false &&
  ((j.getField "lastUpdated").map Json.isStr).getD false

/-- The four WeatherRecord fields the code does guarantee on every
construction path: everything except `temperature`. -/
def hasCoreFields (j : Json) : Bool :=
  ((j.getField "precipitation").map Json.isNum).getD false &&
  ((j.getField "cloudcover").map Json.isNum).getD false &&
  ((j.getField "timestamp").map Json.isStr).getD false &&
  ((j.getField "lastUpdated").map Json.isStr).getD false

/-- Upstream outcomes whose parsed instantaneous reading (when present)
carries its temperature value; only such responses let the fetcher build a
five-field record. -/
def upstreamTempOK : Upstream → Bool
  | .resp _ (some data) =>
    match data.current_weather with
    | some cw => cw.temperature.isSome
    | none => true
  | _ => true

/-- `Array.prototype.findIndex` on a list of time labels; `none` models the
JS result `-1`. -/
def findIndex (p : String → Bool) : List String → Option Nat
  | [] => none
  | t :: ts => if p t then some 0 else Option.map (fun i => i + 1) (findIndex p ts)

/-- Character-level single-separator split (the shape analysis `new Date`
performs on an ISO-like label; character level so that it reduces in the
kernel). -/
def splitOnChar (sep : Char) : List Char → List (List Char)
  | [] => [[]]
  | c :: cs =>
    if c == sep then [] :: splitOnChar sep cs
    else
      match splitOnChar sep cs with
      | [] => [[c]]
      | g :: gs => (c :: g) :: gs

/-- Decimal value of a nonempty all-digit character group; `none` when the
group is empty or holds a non-digit. -/
def digitsValAux : List Char → Nat → Option Nat
  | [], acc => some acc
  | c :: cs, acc =>
    if c.isDigit then digitsValAux cs (acc * 10 + (c.toNat - 48)) else none

def digitsVal : List Char → Option Nat
  | [] => none
  | cs => digitsValAux cs 0

def isLeapYear (y : Nat) : Bool :=
  (y % 4 == 0 && y % 100 != 0) || y % 400 == 0

def daysInMonth (y m : Nat) : Nat :=
  if m == 2 then (if isLeapYear y then 29 else 28)
  else if m == 4 || m == 6 || m == 9 || m == 11 then 30
  else 31

/-- Hour-of-day part of the fallback target: a valid `HH:MM` clock time
yields `dateChars ++ "THH:00"`.  Because the hour group is two zero-padded
digits and at most 23, the `getUTCHours().toString().padStart(2, "0")` of
`worker.ts` line 77 re-renders exactly the input's hour characters. -/
def hourTarget (dateChars hh mm : List Char) : Option String :=
  match digitsVal hh, digitsVal mm with
  | some hn, some mn =>
    if hh.length == 2 && mm.length == 2 && hn ≤ 23 && mn ≤ 59 then
      some (String.mk (dateChars ++ 'T' :: hh ++ [':', '0', '0']))
    else none
  | _, _ => none

/-- Fallback target label of `worker.ts` lines 72-77: in the worker's UTC
runtime, `new Date(currentTime)` / `getUTCHours()` /
`toISOString().split("T")[0]` re-render the date part and the zero-minute
hour of the label.  Modelled for labels of the upstream's shape
`YYYY-MM-DDTHH:MM` or `YYYY-MM-DDTHH:MM:SS`; any other string is mapped to
`none`, modelling the `RangeError` that `toISOString()` raises on an
invalid date, which the surrounding `catch` turns into `null`. -/
def sameHourTarget (t : String) : Option String :=
  match splitOnChar 'T' t.toList with
  | [d, tm] =>
    match splitOnChar '-' d with
    | [y, mo, dd] =>
      match digitsVal y, digitsVal mo, digitsVal dd with
      | some _, some mn, some dn =>
        if y.length == 4 && mo.length == 2 && dd.length == 2 &&
           1 ≤ mn && mn ≤ 12 && 1 ≤ dn &&
           dn ≤ daysInMonth ((digitsVal y).getD 0) mn then
          match splitOnChar ':' tm with
          | [hh, mm] => hourTarget d hh mm
          | [hh, mm, ss] =>
            match digitsVal ss with
            | some sn => if ss.length == 2 && sn ≤ 59 then hourTarget d hh mm else none
            | none => none
          | _ => none
        else none
      | _, _, _ => none
    | _ => none
  | _ => none

/-- Index selection of `worker.ts` lines 66-85: first an exact
`findIndex` match of the current-weather label, then the same-date
current-hour label, then index `0` as a last resort; `none` only when the
fallback label computation itself fails (invalid date label). -/
def selectIndex (currentTime : String) (hourlyTimes : List String) : Option Nat :=
  match findIndex (fun t => t == currentTime) hourlyTimes with
  | some i => some i
  | none =>
    match sameHourTarget currentTime with
    | none => none
    | some targetTime =>
      match findIndex (fun t => t == targetTime) hourlyTimes with
      | some i => some i
      | none => some 0

/-- Index selection of `unnamed/part_000` line 54: one exact `findIndex`
against a possibly-`undefined` current-weather label (`t === undefined` is
false for every string `t`). -/
def strictIndex (currentTime : Option String) (hourlyTimes : List String) : Option Nat :=
  findIndex
    (fun t => match currentTime with
      | none => false
      | some ct => t == ct)
    hourlyTimes

/-- `fetchWeatherData` of `src/worker.ts` lines 37-107 (canonical variant,
fallback index policy).  `up` is the outcome of the one outbound call,
`now` the wall clock read by `new Date().toISOString()` at record
construction. -/
def fetchWeatherData (up : Upstream) (now : String) : Option CachedWeatherData :=
  match up with
  | .transportError => none
  | .resp ok body =>
    if !ok then none
    else
      match body with
      | none => none
      | some data =>
        match data.current_weather, data.hourly with
        | some cw, some h =>
          match h.precipitation, h.cloudcover, h.time with
          | some prec, some cloud, some hourlyTimes =>
            match selectIndex cw.time hourlyTimes with
            | none => none
            | some index =>
              match prec[index]?, cloud[index]? with
              | some p, some c => some ⟨cw.temperature, p, c, cw.time, now⟩
              | _, _ => none
          | _, _, _ => none
        | _, _ => none

/-- `fetchWeatherData` of `unnamed/part_000` lines 37-86 (strict variant:
exact match only, `null` when the current time is not an hourly label). -/
def fetchWeatherDataStrict (up : Upstream) (now : String) : Option CachedWeatherData :=
  match up with
  | .transportError => none
  | .resp ok body =>
    if !ok then none
    else
      match body with
      | none => none
      | some data =>
        match strictIndex (Option.map CurrentWeather.time data.current_weather)
                ((Option.bind data.hourly Hourly.time).getD []),
              data.current_weather,
              Option.bind data.hourly Hourly.precipitation,
              Option.bind data.hourly Hourly.cloudcover with
        | some index, some cw, some prec, some cloud =>
          match prec[index]?, cloud[index]? with
          | some p, some c => some ⟨cw.temperature, p, c, cw.time, now⟩
          | _, _ => none
        | _, _, _, _ => none

/-- `CACHE_KEY` (`worker.ts` line 34). -/
def CACHE_KEY : String := "weather_fukuoka"

/-- `CACHE_TTL` (`worker.ts` line 35): 4 hours in seconds. -/
def CACHE_TTL : Nat := 4 * 60 * 60

/-- Contents of the single KV cell under `CACHE_KEY`.  `absent` covers a
missing or expired entry and the empty string (falsy at `worker.ts`
line 114); `badString` is a stored non-empty string on which `JSON.parse`
throws; `json j` is a stored string that parses to `j`. -/
inductive CacheCell where
  | absent
  | badString
  | json (j : Json)

/-- `corsHeaders` (`worker.ts` lines 28-32). -/
def corsHeaders : List (String × String) :=
  [("Access-Control-Allow-Origin", "*"),
   ("Access-Control-Allow-Methods", "GET,HEAD,POST,OPTIONS"),
   ("Access-Control-Max-Age", "86400")]

/-- `getCachedWeatherData` (`worker.ts` lines 109-121): a throwing KV read
(`readFails`), an absent/empty value, and an unparseable value all collapse
to `null`; otherwise the parsed JSON value is returned unvalidated (the
`as CachedWeatherData` cast checks nothing). -/
def getCachedWeatherData (cell : CacheCell) (readFails : Bool) : Option Json :=
  if readFails then none
  else
    match cell with
    | .absent => none
    | .badString => none
    | .json j => some j

/-- `setCachedWeatherData` (`worker.ts` lines 123-134): on success the cell
holds the stringified record (with `expirationTtl` `CACHE_TTL`); a throwing
KV write is swallowed, leaving the cell unchanged. -/
def setCachedWeatherData (cell : CacheCell) (putFails : Bool)
    (data : CachedWeatherData) : CacheCell :=
  if putFails then cell else .json (encodeRecord data)

/-- Response bodies: `null` (no body), a plain-text string, or a
JSON-stringified value kept at the parsed level. -/
inductive Body where
  | empty
  | text (s : String)
  | jsonBody (j : Json)

/-- An HTTP response: status, body, headers in construction order. -/
structure Resp where
  status : Nat
  body : Body
  headers : List (String × String)

/-- Observable effect counts of one handler invocation: KV reads performed,
outbound upstream calls performed, and the records passed to the KV write
(in order). -/
structure Outputs where
  cacheReads : Nat
  upstreamCalls : Nat
  writesAttempted : List CachedWeatherData

/-- The 200 JSON response of `worker.ts` lines 172-177. -/
def jsonResp (j : Json) : Resp :=
  ⟨200, .jsonBody j, ("Content-Type", "application/json") :: corsHeaders⟩

/-- The pre-flight response of `worker.ts` lines 142-150 (default status
200, no body, CORS headers plus the echoed request headers, `""` when the
inbound header is absent or empty). -/
def preflightResp (acrh : Option String) : Resp :=
  ⟨200, .empty, corsHeaders ++ [("Access-Control-Allow-Headers", acrh.getD "")]⟩

/-- `if (!weatherData)` at `worker.ts` line 156: a parsed-but-falsy cached
value is treated like a miss. -/
def truthyOnly : Option Json → Option Json
  | some j => if jsTruthy j then some j else none
  | none => none

/-- The `fetch` entry point of `worker.ts` lines 137-186.  The `catch` at
line 178 is unreachable in this model: every inner operation already
handles its own failures (`getCachedWeatherData`, `fetchWeatherData`, and
`setCachedWeatherData` each swallow their exceptions), so no 500 branch
appears. -/
def workerFetch (method : String) (acrh : Option String) (cell : CacheCell)
    (readFails : Bool) (up : Upstream) (now : String) (putFails : Bool) :
    Resp × CacheCell × Outputs :=
  if method == "OPTIONS" then
    (preflightResp acrh, cell, ⟨0, 0, []⟩)
  else
    match truthyOnly (getCachedWeatherData cell readFails) with
    | some j => (jsonResp j, cell, ⟨1, 0, []⟩)
    | none =>
      match fetchWeatherData up now with
      | none =>
        (⟨503, .text "Unable to fetch weather data", corsHeaders⟩, cell, ⟨1, 1, []⟩)
      | some r =>
        (jsonResp (encodeRecord r), setCachedWeatherData cell putFails r, ⟨1, 1, [r]⟩)

/-- The `scheduled` entry point of `worker.ts` lines 188-211: fetch
unconditionally (no cache read), write on success, log-and-return on
failure; the `catch` at line 207 keeps the handler total. -/
def workerScheduled (cell : CacheCell) (putFails : Bool) (up : Upstream)
    (now : String) : CacheCell × Outputs :=
  match fetchWeatherData up now with
  | some r => (setCachedWeatherData cell putFails r, ⟨0, 1, [r]⟩)
  | none => (cell, ⟨0, 1, []⟩)

/-- One platform event: an inbound HTTP request (method and inbound
`Access-Control-Request-Headers` value) or a cron firing. -/
inductive Event where
  | http (method : String) (acrh : Option String)
  | timer

/-- Environment of one invocation: the event, whether the TTL lapsed before
it (expired entries read as absent), the fault flags of the two KV
operations, the upstream outcome, and the wall clock. -/
structure StepInput where
  ev : Event
  expired : Bool
  readFails : Bool
  up : Upstream
  now : String
  putFails : Bool

/-- One invocation against the shared KV cell: applies TTL expiry, then
dispatches to the matching entry point.  Returns the new cell, the HTTP
response (for HTTP events), and the observable effects. -/
def step (cell : CacheCell) (inp : StepInput) : CacheCell × Option Resp × Outputs :=
  let cell0 := if inp.expired then CacheCell.absent else cell
  match inp.ev with
  | .http m a =>
    let r := workerFetch m a cell0 inp.readFails inp.up inp.now inp.putFails
    (r.2.1, some r.1, r.2.2)
  | .timer =>
    let r := workerScheduled cell0 inp.putFails inp.up inp.now
    (r.1, none, r.2)

/-- A whole system run: successive invocations against the single KV cell,
collecting every HTTP response. -/
def runTrace (cell : CacheCell) : List StepInput → CacheCell × List (Option Resp)
  | [] => (cell, [])
  | inp :: rest =>
    let s := step cell inp
    let t := runTrace s.1 rest
    (t.1, s.2.1 :: t.2)

/-- KV cell states the system itself can produce: empty, or the
serialization of one record (possibly missing its temperature). -/
def cellOK (c : CacheCell) : Prop :=
  c = CacheCell.absent ∨ ∃ r, c = CacheCell.json (encodeRecord r)

/-- KV cell states of the temperature-carrying runs: empty, or the
serialization of one record whose temperature is present. -/
def cellOKComplete (c : CacheCell) : Prop :=
  c = CacheCell.absent ∨
    ∃ r, r.temperature.isSome = true ∧ c = CacheCell.json (encodeRecord r)

/-- A response is record-complete when any JSON body it carries has all
five WeatherRecord fields. -/
def respBodyOK : Option Resp → Bool
  | none => true
  | some r =>
    match r.body with
    | .jsonBody j => hasRecordFields j
    | _ => true

/-- A response is core-complete when any JSON body it carries has the four
always-guaranteed WeatherRecord fields. -/
def respCoreOK : Option Resp → Bool
  | none => true
  | some r =>
    match r.body with
    | .jsonBody j => hasCoreFields j
    | _ => true

theorem hasRecordFields_encode (r : CachedWeatherData) :
    hasRecordFields (encodeRecord r) = r.temperature.isSome := by
  obtain ⟨t, p, c, ts, lu⟩ := r
  cases t <;> rfl

theorem hasCoreFields_encode (r : CachedWeatherData) :
    hasCoreFields (encodeRecord r) = true := by
  obtain ⟨t, p, c, ts, lu⟩ := r
  cases t <;> rfl

theorem jsTruthy_encode (r : CachedWeatherData) :
    jsTruthy (encodeRecord r) = true := rfl

theorem truthyOnly_eq_some {o : Option Json} {j : Json}
    (h : truthyOnly o = some j) : o = some j ∧ jsTruthy j = true := by
  match o with
  | none => simp [truthyOnly] at h
  | some a =>
    by_cases ht : jsTruthy a = true
    · simp [truthyOnly, ht] at h
      exact ⟨by rw [h], by rw [← h]; exact ht⟩
    · simp [truthyOnly, Bool.eq_false_iff.mpr ht] at h

theorem getCached_eq_some {cell : CacheCell} {rf : Bool} {j : Json}
    (h : getCachedWeatherData cell rf = some j) : cell = CacheCell.json j := by
  cases rf <;> cases cell <;> simp [getCachedWeatherData] at h
  rw [h]

theorem fetchWeatherData_temperature (up : Upstream) (now : String)
    (r : CachedWeatherData) (hok : upstreamTempOK up = true)
    (hf : fetchWeatherData up now = some r) : r.temperature.isSome = true := by
  cases up with
  | transportError => simp [fetchWeatherData] at hf
  | resp ok body =>
    cases ok with
    | false => simp [fetchWeatherData] at hf
    | true =>
      cases body with
      | none => simp [fetchWeatherData] at hf
      | some data =>
        cases hcw : data.current_weather with
        | none =>
          cases hh : data.hourly <;> simp [fetchWeatherData, hcw, hh] at hf
        | some cw =>
          cases hh : data.hourly with
          | none => simp [fetchWeatherData, hcw, hh] at hf
          | some h =>
            cases ht : h.time with
            | none =>
              cases hp : h.precipitation <;> cases hc : h.cloudcover <;>
                simp [fetchWeatherData, hcw, hh, ht, hp, hc] at hf
            | some times =>
              cases hp : h.precipitation with
              | none =>
                cases hc : h.cloudcover <;>
                  simp [fetchWeatherData, hcw, hh, ht, hp, hc] at hf
              | some prec =>
                cases hc : h.cloudcover with
                | none => simp [fetchWeatherData, hcw, hh, ht, hp, hc] at hf
                | some cloud =>
                  simp only [fetchWeatherData, Bool.not_true, Bool.false_eq_true,
                    if_false, hcw, hh, ht, hp, hc] at hf
                  cases hsi : selectIndex cw.time times with
                  | none => simp [hsi] at hf
                  | some i =>
                    cases hgp : prec[i]? with
                    | none => simp [hsi, hgp] at hf
                    | some p =>
                      cases hgc : cloud[i]? with
                      | none => simp [hsi, hgp, hgc] at hf
                      | some c =>
                        simp only [hsi, hgp, hgc, Option.some.injEq] at hf
                        have htemp : cw.temperature.isSome = true := by
                          simpa [upstreamTempOK, hcw] using hok
                        rw [← hf]
                        exact htemp

/-- C9: an `OPTIONS` request, whatever the cache, KV faults, upstream state
and clock, yields status 200 with no body, the permissive CORS headers
including `Access-Control-Allow-Origin: *`, and the inbound
`Access-Control-Request-Headers` value echoed verbatim (empty when absent);
the cell is untouched and no cache read, upstream call, or cache write
happens. -/
theorem c9_options_preflight :
    ∀ (acrh : Option String) (cell : CacheCell) (readFails : Bool)
      (up : Upstream) (now : String) (putFails : Bool),
    workerFetch "OPTIONS" acrh cell readFails up now putFails =
      (⟨200, Body.empty,
        [("Access-Control-Allow-Origin", "*"),
         ("Access-Control-Allow-Methods", "GET,HEAD,POST,OPTIONS"),
         ("Access-Control-Max-Age", "86400"),
         ("Access-Control-Allow-Headers", acrh.getD "")]⟩,
       cell, ⟨0, 0, []⟩) := by
  intro a cell rf up now pf
  rfl

/-- C3: on a non-`OPTIONS` request whose cache read yields a stored record,
the handler returns that record unchanged as the 200 JSON body, performs no
upstream call and no cache write, and leaves the cell unchanged. -/
theorem c3_cache_hit_returns_cached
    (method : String) (acrh : Option String) (cell : CacheCell)
    (readFails : Bool) (up : Upstream) (now : String) (putFails : Bool)
    (r : CachedWeatherData)
    (hm : method ≠ "OPTIONS")
    (hhit : getCachedWeatherData cell readFails = some (encodeRecord r)) :
    workerFetch method acrh cell readFails up now putFails =
      (jsonResp (encodeRecord r), cell, ⟨1, 0, []⟩) := by
  have hb : (method == "OPTIONS") = false := by
    simp [hm]
  unfold workerFetch
  rw [hb, hhit]
  simp [truthyOnly, jsTruthy_encode]

/-- Witness for C3 at the cached record of the repository test suite. -/
theorem c3_cache_hit_returns_cached_witness :
    workerFetch "GET" none
      (CacheCell.json (encodeRecord ⟨some 25.5, 0.2, 30, "2025-06-26T12:00", "2025-06-26T12:00:00.000Z"⟩))
      false Upstream.transportError "NOW" false =
      (jsonResp (encodeRecord ⟨some 25.5, 0.2, 30, "2025-06-26T12:00", "2025-06-26T12:00:00.000Z"⟩),
       CacheCell.json (encodeRecord ⟨some 25.5, 0.2, 30, "2025-06-26T12:00", "2025-06-26T12:00:00.000Z"⟩),
       ⟨1, 0, []⟩) :=
  c3_cache_hit_returns_cached "GET" none _ false Upstream.transportError "NOW" false
    ⟨some 25.5, 0.2, 30, "2025-06-26T12:00", "2025-06-26T12:00:00.000Z"⟩ (by decide) rfl

/-- C4: on a non-`OPTIONS` request with an absent cache entry whose fetch
signals unavailable (non-success status or any other fetch failure), the
handler returns exactly status 503 with the plain-text body
"Unable to fetch weather data" and the CORS headers, and attempts no cache
write. -/
theorem c4_unavailable_returns_503
    (method : String) (acrh : Option String) (cell : CacheCell)
    (readFails : Bool) (up : Upstream) (now : String) (putFails : Bool)
    (hm : method ≠ "OPTIONS")
    (hmiss : getCachedWeatherData cell readFails = none)
    (hfail : fetchWeatherData up now = none) :
    workerFetch method acrh cell readFails up now putFails =
      (⟨503, Body.text "Unable to fetch weather data", corsHeaders⟩,
       cell, ⟨1, 1, []⟩) := by
  have hb : (method == "OPTIONS") = false := by
    simp [hm]
  unfold workerFetch
  rw [hb, hmiss, hfail]
  rfl

/-- Witness for C4 at a non-success upstream status. -/
theorem c4_unavailable_returns_503_witness :
    workerFetch "GET" none CacheCell.absent false (Upstream.resp false none) "NOW" false =
      (⟨503, Body.text "Unable to fetch weather data", corsHeaders⟩,
       CacheCell.absent, ⟨1, 1, []⟩) :=
  c4_unavailable_returns_503 "GET" none CacheCell.absent false (Upstream.resp false none)
    "NOW" false (by decide) rfl rfl

/-- C1: on a non-`OPTIONS` request with an absent cache entry, a successful
upstream response whose hourly time array contains the current-weather time
as an exact string match, and hourly values present at that index, the
handler returns the 200 JSON record taking temperature and timestamp from
the instantaneous reading, precipitation and cloudcover from the hourly
arrays at the matching index, and `lastUpdated` from the wall clock; the
cache write is invoked exactly once with that same record. -/
theorem c1_cache_miss_fetch_success
    (method : String) (acrh : Option String) (cell : CacheCell)
    (readFails : Bool) (data : WeatherAPIResponse) (now : String)
    (putFails : Bool) (cw : CurrentWeather) (h : Hourly)
    (prec cloud : List ℚ) (times : List String) (i : Nat) (p c : ℚ)
    (hm : method ≠ "OPTIONS")
    (hmiss : getCachedWeatherData cell readFails = none)
    (hcw : data.current_weather = some cw)
    (hh : data.hourly = some h)
    (hprec : h.precipitation = some prec)
    (hcloud : h.cloudcover = some cloud)
    (htimes : h.time = some times)
    (hidx : findIndex (fun t => t == cw.time) times = some i)
    (hp : prec[i]? = some p)
    (hc : cloud[i]? = some c) :
    workerFetch method acrh cell readFails (Upstream.resp true (some data)) now putFails =
      (jsonResp (encodeRecord ⟨cw.temperature, p, c, cw.time, now⟩),
       setCachedWeatherData cell putFails ⟨cw.temperature, p, c, cw.time, now⟩,
       ⟨1, 1, [⟨cw.temperature, p, c, cw.time, now⟩]⟩) := by
  have hb : (method == "OPTIONS") = false := by
    simp [hm]
  have hf : fetchWeatherData (Upstream.resp true (some data)) now =
      some ⟨cw.temperature, p, c, cw.time, now⟩ := by
    simp [fetchWeatherData, hcw, hh, hprec, hcloud, htimes, selectIndex, hidx, hp, hc]
  unfold workerFetch
  rw [hb, hmiss, hf]
  rfl

/-- Witness for C1 at the spec's §8 example upstream response. -/
theorem c1_cache_miss_fetch_success_witness :
    workerFetch "GET" none CacheCell.absent false
      (Upstream.resp true (some ⟨some ⟨some 23.1, "2025-06-26T12:00"⟩,
        some ⟨some ["2025-06-26T12:00", "2025-06-26T13:00"],
              some [0.1, 0.2], some [25, 35]⟩⟩))
      "2025-06-26T12:00:05.000Z" false =
      (jsonResp (encodeRecord ⟨some 23.1, 0.1, 25, "2025-06-26T12:00", "2025-06-26T12:00:05.000Z"⟩),
       setCachedWeatherData CacheCell.absent false
         ⟨some 23.1, 0.1, 25, "2025-06-26T12:00", "2025-06-26T12:00:05.000Z"⟩,
       ⟨1, 1, [⟨some 23.1, 0.1, 25, "2025-06-26T12:00", "2025-06-26T12:00:05.000Z"⟩]⟩) :=
  c1_cache_miss_fetch_success "GET" none CacheCell.absent false
    ⟨some ⟨some 23.1, "2025-06-26T12:00"⟩,
     some ⟨some ["2025-06-26T12:00", "2025-06-26T13:00"], some [0.1, 0.2], some [25, 35]⟩⟩
    "2025-06-26T12:00:05.000Z" false
    ⟨some 23.1, "2025-06-26T12:00"⟩
    ⟨some ["2025-06-26T12:00", "2025-06-26T13:00"], some [0.1, 0.2], some [25, 35]⟩
    [0.1, 0.2] [25, 35] ["2025-06-26T12:00", "2025-06-26T13:00"] 0 0.1 25
    (by decide) rfl rfl rfl rfl rfl rfl rfl rfl rfl

/-- C6: the timer handler calls the fetcher exactly once and performs no
cache read, irrespective of the pre-existing cell and of the KV write fault
flag; its attempted cache writes are exactly the singleton fetched record
on success and nothing on failure (`Option.toList`); being a total
function, it propagates no exception. -/
theorem c6_scheduled_unconditional_refresh :
    ∀ (cell : CacheCell) (putFails : Bool) (up : Upstream) (now : String),
    (workerScheduled cell putFails up now).2 =
      ⟨0, 1, (fetchWeatherData up now).toList⟩ := by
  intro cell pf up now
  unfold workerScheduled
  cases hf : fetchWeatherData up now <;> simp

/-- C8: with the fetch outcome fixed, a failing KV write changes neither
the HTTP response of the request handler nor the observable outputs of the
timer handler: the write swallows its own error. -/
theorem c8_cache_write_failure_transparent :
    ∀ (method : String) (acrh : Option String) (cell : CacheCell)
      (readFails : Bool) (up : Upstream) (now : String),
    (workerFetch method acrh cell readFails up now true).1 =
      (workerFetch method acrh cell readFails up now false).1 ∧
    (workerScheduled cell true up now).2 = (workerScheduled cell false up now).2 := by
  intro m a cell rf up now
  constructor
  · unfold workerFetch
    cases hm : (m == "OPTIONS")
    · cases ht : truthyOnly (getCachedWeatherData cell rf)
      · cases hf : fetchWeatherData up now <;> simp
      · simp
    · simp
  · unfold workerScheduled
    cases hf : fetchWeatherData up now <;> simp

/-- C2 fails on `src/worker.ts`: at this upstream response the
current-weather time "2025-06-26T12:15" has no exact match in the hourly
time array, yet the fetcher returns a record (built from the same-hour
fallback index) instead of signalling unavailable. -/
theorem c2_strict_match_counterexample :
    findIndex (fun t => t == "2025-06-26T12:15") ["2025-06-26T12:00"] = none ∧
    fetchWeatherData
      (Upstream.resp true (some ⟨some ⟨some 20, "2025-06-26T12:15"⟩,
        some ⟨some ["2025-06-26T12:00"], some [0.1], some [25]⟩⟩))
      "2025-06-26T12:20:00.000Z" =
      some ⟨some 20, 0.1, 25, "2025-06-26T12:15", "2025-06-26T12:20:00.000Z"⟩ :=
  ⟨rfl, rfl⟩

/-- C2 amended: the canonical fetcher in `src/worker.ts` selects the index
whose label equals the current-weather time exactly when such an index
exists; when none exists it does not signal unavailable but falls back,
choosing the index of the same-date current-hour label when that label
occurs in the array and index 0 otherwise.  Only the variant fetcher in
`unnamed/part_000` signals unavailable whenever no exact match exists. -/
theorem c2_fallback_policy_amended :
    (∀ (ct : String) (times : List String) (i : Nat),
      findIndex (fun t => t == ct) times = some i →
      selectIndex ct times = some i) ∧
    (∀ (ct tgt : String) (times : List String),
      findIndex (fun t => t == ct) times = none →
      sameHourTarget ct = some tgt →
      selectIndex ct times = some ((findIndex (fun t => t == tgt) times).getD 0)) ∧
    (∀ (data : WeatherAPIResponse) (now : String),
      strictIndex (Option.map CurrentWeather.time data.current_weather)
        ((Option.bind data.hourly Hourly.time).getD []) = none →
      fetchWeatherDataStrict (Upstream.resp true (some data)) now = none) := by
  refine ⟨?_, ?_, ?_⟩
  · intro ct times i hidx
    simp [selectIndex, hidx]
  · intro ct tgt times hnone htgt
    cases hfb : findIndex (fun t => t == tgt) times <;>
      simp [selectIndex, hnone, htgt, hfb]
  · intro data now hidx
    simp [fetchWeatherDataStrict, hidx]

/-- Witness for C2 amended: the exact-match branch at the spec example, the
fallback branch at a label 12:15 whose hour 12:00 is absent from the array
(index 0 is used), and the strict variant returning no record on the
counterexample input. -/
theorem c2_fallback_policy_amended_witness :
    selectIndex "2025-06-26T12:00" ["2025-06-26T12:00", "2025-06-26T13:00"] = some 0 ∧
    selectIndex "2025-06-26T12:15" ["2025-06-26T11:00"] = some 0 ∧
    fetchWeatherDataStrict
      (Upstream.resp true (some ⟨some ⟨some 20, "2025-06-26T12:15"⟩,
        some ⟨some ["2025-06-26T12:00"], some [0.1], some [25]⟩⟩))
      "2025-06-26T12:20:00.000Z" = none :=
  ⟨c2_fallback_policy_amended.1 "2025-06-26T12:00"
      ["2025-06-26T12:00", "2025-06-26T13:00"] 0 rfl,
   c2_fallback_policy_amended.2.1 "2025-06-26T12:15" "2025-06-26T12:00"
      ["2025-06-26T11:00"] rfl rfl,
   c2_fallback_policy_amended.2.2
      ⟨some ⟨some 20, "2025-06-26T12:15"⟩,
       some ⟨some ["2025-06-26T12:00"], some [0.1], some [25]⟩⟩
      "2025-06-26T12:20:00.000Z" rfl⟩

/-- C7 fails on `src/worker.ts`: at this parseable body whose
`current_weather` passes the object guard but lacks its `temperature`
value, the fetcher returns a record rather than the unavailable signal,
and that record's serialization is missing the temperature field
(`JSON.stringify` drops the `undefined` property) -- neither a complete
WeatherRecord nor "unavailable". -/
theorem c7_partial_record_counterexample :
    fetchWeatherData
      (Upstream.resp true (some ⟨some ⟨none, "2025-06-26T12:00"⟩,
        some ⟨some ["2025-06-26T12:00"], some [0.1], some [25]⟩⟩)) "NOW" =
      some ⟨none, 0.1, 25, "2025-06-26T12:00", "NOW"⟩ ∧
    hasRecordFields (encodeRecord ⟨none, 0.1, 25, "2025-06-26T12:00", "NOW"⟩) = false :=
  ⟨rfl, rfl⟩

/-- C7 amended: the canonical fetcher is total at its boundary and never
throws; a transport failure, a non-success status, an unparseable body, or
a body missing the instantaneous reading or any of the three hourly arrays
each yield the unavailable signal (`none`).  Every returned record carries
the four fields precipitation, cloudcover, timestamp and lastUpdated, and
carries temperature as well whenever the parsed instantaneous reading
supplied one; a reading without its temperature value is passed through as
a record missing only that field rather than being rejected. -/
theorem c7_fetcher_totality_amended :
    (∀ now, fetchWeatherData Upstream.transportError now = none) ∧
    (∀ body now, fetchWeatherData (Upstream.resp false body) now = none) ∧
    (∀ now, fetchWeatherData (Upstream.resp true none) now = none) ∧
    (∀ (data : WeatherAPIResponse) now, data.current_weather = none →
      fetchWeatherData (Upstream.resp true (some data)) now = none) ∧
    (∀ (data : WeatherAPIResponse) now, data.hourly = none →
      fetchWeatherData (Upstream.resp true (some data)) now = none) ∧
    (∀ (data : WeatherAPIResponse) (h : Hourly) now, data.hourly = some h →
      h.time = none ∨ h.precipitation = none ∨ h.cloudcover = none →
      fetchWeatherData (Upstream.resp true (some data)) now = none) ∧
    (∀ up now, fetchWeatherData up now = none ∨
      ∃ r, fetchWeatherData up now = some r ∧
        hasCoreFields (encodeRecord r) = true ∧
        (upstreamTempOK up = true → hasRecordFields (encodeRecord r) = true)) := by
  refine ⟨fun now => rfl, fun body now => rfl, fun now => rfl, ?_, ?_, ?_, ?_⟩
  · intro data now hcw
    cases hh : data.hourly <;> simp [fetchWeatherData, hcw, hh]
  · intro data now hh
    cases hcw : data.current_weather <;> simp [fetchWeatherData, hcw, hh]
  · intro data h now hh hmiss
    cases hcw : data.current_weather with
    | none => cases rt : h.time <;> simp [fetchWeatherData, hcw, hh]
    | some cw =>
      rcases hmiss with ht | hp | hc
      · cases rp : h.precipitation <;> cases rc : h.cloudcover <;>
          simp [fetchWeatherData, hcw, hh, ht, rp, rc]
      · cases rt : h.time <;> cases rc : h.cloudcover <;>
          simp [fetchWeatherData, hcw, hh, hp, rt, rc]
      · cases rt : h.time <;> cases rp : h.precipitation <;>
          simp [fetchWeatherData, hcw, hh, hc, rt, rp]
  · intro up now
    cases hf : fetchWeatherData up now with
    | none => exact Or.inl rfl
    | some r =>
      refine Or.inr ⟨r, rfl, hasCoreFields_encode r, fun hok => ?_⟩
      rw [hasRecordFields_encode]
      exact fetchWeatherData_temperature up now r hok hf

/-- Witness for C7 amended at a body missing all hourly arrays
(unavailable) and at the spec example (record with all five fields). -/
theorem c7_fetcher_totality_amended_witness :
    fetchWeatherData (Upstream.resp true (some ⟨some ⟨some 23.1, "2025-06-26T12:00"⟩,
      some ⟨none, none, none⟩⟩)) "NOW" = none ∧
    (fetchWeatherData (Upstream.resp true (some ⟨none, none⟩)) "NOW" = none ∨
      ∃ r, fetchWeatherData (Upstream.resp true (some ⟨none, none⟩)) "NOW" = some r ∧
        hasCoreFields (encodeRecord r) = true ∧
        (upstreamTempOK (Upstream.resp true (some ⟨none, none⟩)) = true →
          hasRecordFields (encodeRecord r) = true)) :=
  ⟨c7_fetcher_totality_amended.2.2.2.2.2.1
      ⟨some ⟨some 23.1, "2025-06-26T12:00"⟩, some ⟨none, none, none⟩⟩
      ⟨none, none, none⟩ "NOW" rfl (Or.inl rfl),
   c7_fetcher_totality_amended.2.2.2.2.2.2 (Upstream.resp true (some ⟨none, none⟩)) "NOW"⟩

theorem strictIndex_some (ct : String) (ts : List String) :
    strictIndex (some ct) ts = findIndex (fun t => t == ct) ts := rfl

/-- The inputs on which the two fetcher variants are claimed to agree:
every transport failure, every non-success status, every unparseable or
incomplete body (missing instantaneous reading or any hourly array), and
every well-formed body whose hourly time array contains the current-weather
time as an exact string match. -/
def agreementDomain : Upstream → Bool
  | .transportError => true
  | .resp ok body =>
    !ok ||
    (match body with
     | none => true
     | some data =>
       match data.current_weather, data.hourly with
       | none, _ => true
       | some _, none => true
       | some cw, some h =>
         match h.time, h.precipitation, h.cloudcover with
         | none, _, _ => true
         | _, none, _ => true
         | _, _, none => true
         | some hourlyTimes, some _, some _ =>
           (findIndex (fun t => t == cw.time) hourlyTimes).isSome)

/-- C10: on every input of the agreement domain the fallback-policy fetcher
of `src/worker.ts` and the strict fetcher of `unnamed/part_000` return
equal results; the `lastUpdated` wall-clock field is controlled by the
shared `now` argument, so equality is up to the wall clock exactly as the
claim states. -/
theorem c10_fetcher_variants_agree (up : Upstream) (now : String)
    (hdom : agreementDomain up = true) :
    fetchWeatherData up now = fetchWeatherDataStrict up now := by
  cases up with
  | transportError => rfl
  | resp ok body =>
    cases ok with
    | false => rfl
    | true =>
      cases body with
      | none => rfl
      | some data =>
        cases hcw : data.current_weather with
        | none =>
          cases hh : data.hourly with
          | none => simp [fetchWeatherData, fetchWeatherDataStrict, hcw, hh, strictIndex]
          | some h =>
            cases ht : h.time with
            | none =>
              simp [fetchWeatherData, fetchWeatherDataStrict, hcw, hh, ht, strictIndex]
            | some times =>
              simp only [fetchWeatherData, fetchWeatherDataStrict, hcw, hh, ht]
              cases hsi : strictIndex none times <;>
                cases hp : h.precipitation <;> cases hc : h.cloudcover <;>
                  simp [hsi, hp, hc]
        | some cw =>
          cases hh : data.hourly with
          | none => simp [fetchWeatherData, fetchWeatherDataStrict, hcw, hh, strictIndex]
          | some h =>
            cases ht : h.time with
            | none =>
              cases hp : h.precipitation <;> cases hc : h.cloudcover <;>
                simp [fetchWeatherData, fetchWeatherDataStrict, hcw, hh, ht, hp, hc,
                  strictIndex, findIndex]
            | some times =>
              cases hp : h.precipitation with
              | none =>
                cases hsi : strictIndex (some cw.time) times <;>
                  cases hc : h.cloudcover <;>
                    simp [fetchWeatherData, fetchWeatherDataStrict, hcw, hh, ht, hp, hc, hsi]
              | some prec =>
                cases hc : h.cloudcover with
                | none =>
                  cases hsi : strictIndex (some cw.time) times <;>
                    simp [fetchWeatherData, fetchWeatherDataStrict, hcw, hh, ht, hp, hc, hsi]
                | some cloud =>
                  have hidx : (findIndex (fun t => t == cw.time) times).isSome = true := by
                    simpa [agreementDomain, hcw, hh, ht, hp, hc] using hdom
                  obtain ⟨i, hi⟩ := Option.isSome_iff_exists.mp hidx
                  have hsi : strictIndex (some cw.time) times = some i := by
                    rw [strictIndex_some, hi]
                  simp [fetchWeatherData, fetchWeatherDataStrict, hcw, hh, ht, hp, hc,
                    selectIndex, hi, hsi]

/-- Witness for C10 at the spec's exact-match example input. -/
theorem c10_fetcher_variants_agree_witness :
    fetchWeatherData
      (Upstream.resp true (some ⟨some ⟨some 23.1, "2025-06-26T12:00"⟩,
        some ⟨some ["2025-06-26T12:00", "2025-06-26T13:00"],
              some [0.1, 0.2], some [25, 35]⟩⟩)) "NOW" =
    fetchWeatherDataStrict
      (Upstream.resp true (some ⟨some ⟨some 23.1, "2025-06-26T12:00"⟩,
        some ⟨some ["2025-06-26T12:00", "2025-06-26T13:00"],
              some [0.1, 0.2], some [25, 35]⟩⟩)) "NOW" :=
  c10_fetcher_variants_agree _ "NOW" rfl

theorem workerFetch_preserves (m : String) (a : Option String) (cell : CacheCell)
    (rf : Bool) (up : Upstream) (now : String) (pf : Bool) (hc : cellOK cell) :
    cellOK (workerFetch m a cell rf up now pf).2.1 ∧
    respCoreOK (some (workerFetch m a cell rf up now pf).1) = true := by
  unfold workerFetch
  cases hm : (m == "OPTIONS") with
  | true => exact ⟨hc, rfl⟩
  | false =>
    cases hget : truthyOnly (getCachedWeatherData cell rf) with
    | some j =>
      have hcell := getCached_eq_some (truthyOnly_eq_some hget).1
      have hj : hasCoreFields j = true := by
        rcases hc with habs | ⟨r, hr⟩
        · rw [habs] at hcell; exact absurd hcell (by simp)
        · rw [hr] at hcell
          injection hcell with hje
          rw [← hje]
          exact hasCoreFields_encode r
      simp [respCoreOK, jsonResp, hj, hc]
    | none =>
      cases hf : fetchWeatherData up now with
      | none => exact ⟨hc, rfl⟩
      | some r =>
        constructor
        · unfold setCachedWeatherData
          cases pf with
          | true => simpa using hc
          | false => exact Or.inr ⟨r, rfl⟩
        · simp [respCoreOK, jsonResp, hasCoreFields_encode]

theorem workerFetch_preserves_complete (m : String) (a : Option String)
    (cell : CacheCell) (rf : Bool) (up : Upstream) (now : String) (pf : Bool)
    (hok : upstreamTempOK up = true) (hc : cellOKComplete cell) :
    cellOKComplete (workerFetch m a cell rf up now pf).2.1 ∧
    respBodyOK (some (workerFetch m a cell rf up now pf).1) = true := by
  unfold workerFetch
  cases hm : (m == "OPTIONS") with
  | true => exact ⟨hc, rfl⟩
  | false =>
    cases hget : truthyOnly (getCachedWeatherData cell rf) with
    | some j =>
      have hcell := getCached_eq_some (truthyOnly_eq_some hget).1
      have hj : hasRecordFields j = true := by
        rcases hc with habs | ⟨r, hsome, hr⟩
        · rw [habs] at hcell; exact absurd hcell (by simp)
        · rw [hr] at hcell
          injection hcell with hje
          rw [← hje, hasRecordFields_encode]
          exact hsome
      simp [respBodyOK, jsonResp, hj, hc]
    | none =>
      cases hf : fetchWeatherData up now with
      | none => exact ⟨hc, rfl⟩
      | some r =>
        have htemp : r.temperature.isSome = true :=
          fetchWeatherData_temperature up now r hok hf
        constructor
        · unfold setCachedWeatherData
          cases pf with
          | true => simpa using hc
          | false => exact Or.inr ⟨r, htemp, rfl⟩
        · simp [respBodyOK, jsonResp, hasRecordFields_encode, htemp]

theorem workerScheduled_preserves (cell : CacheCell) (pf : Bool) (up : Upstream)
    (now : String) (hc : cellOK cell) :
    cellOK (workerScheduled cell pf up now).1 := by
  unfold workerScheduled
  cases hf : fetchWeatherData up now with
  | none => exact hc
  | some r =>
    unfold setCachedWeatherData
    cases pf with
    | true => simpa using hc
    | false => exact Or.inr ⟨r, rfl⟩

theorem workerScheduled_preserves_complete (cell : CacheCell) (pf : Bool)
    (up : Upstream) (now : String) (hok : upstreamTempOK up = true)
    (hc : cellOKComplete cell) :
    cellOKComplete (workerScheduled cell pf up now).1 := by
  unfold workerScheduled
  cases hf : fetchWeatherData up now with
  | none => exact hc
  | some r =>
    unfold setCachedWeatherData
    cases pf with
    | true => simpa using hc
    | false => exact Or.inr ⟨r, fetchWeatherData_temperature up now r hok hf, rfl⟩

theorem step_preserves (cell : CacheCell) (inp : StepInput) (hc : cellOK cell) :
    cellOK (step cell inp).1 ∧ respCoreOK (step cell inp).2.1 = true := by
  have hc0 : cellOK (if inp.expired then CacheCell.absent else cell) := by
    cases inp.expired with
    | true => exact Or.inl rfl
    | false => exact hc
  unfold step
  cases hev : inp.ev with
  | http m a =>
    have h := workerFetch_preserves m a _ inp.readFails inp.up inp.now inp.putFails hc0
    exact ⟨h.1, h.2⟩
  | timer =>
    exact ⟨workerScheduled_preserves _ inp.putFails inp.up inp.now hc0, rfl⟩

theorem step_preserves_complete (cell : CacheCell) (inp : StepInput)
    (hok : upstreamTempOK inp.up = true) (hc : cellOKComplete cell) :
    cellOKComplete (step cell inp).1 ∧ respBodyOK (step cell inp).2.1 = true := by
  have hc0 : cellOKComplete (if inp.expired then CacheCell.absent else cell) := by
    cases inp.expired with
    | true => exact Or.inl rfl
    | false => exact hc
  unfold step
  cases hev : inp.ev with
  | http m a =>
    have h := workerFetch_preserves_complete m a _ inp.readFails inp.up inp.now
      inp.putFails hok hc0
    exact ⟨h.1, h.2⟩
  | timer =>
    exact ⟨workerScheduled_preserves_complete _ inp.putFails inp.up inp.now hok hc0, rfl⟩

theorem runTrace_preserves (trace : List StepInput) :
    ∀ cell, cellOK cell →
      cellOK (runTrace cell trace).1 ∧
      ((runTrace cell trace).2.all respCoreOK) = true := by
  induction trace with
  | nil => exact fun cell hc => ⟨hc, rfl⟩
  | cons inp rest ih =>
    intro cell hc
    have hstep := step_preserves cell inp hc
    have hrest := ih _ hstep.1
    refine ⟨hrest.1, ?_⟩
    simp [runTrace, List.all, hstep.2, hrest.2]

theorem runTrace_preserves_complete (trace : List StepInput)
    (hall : (trace.all fun inp => upstreamTempOK inp.up) = true) :
    ∀ cell, cellOKComplete cell →
      cellOKComplete (runTrace cell trace).1 ∧
      ((runTrace cell trace).2.all respBodyOK) = true := by
  induction trace with
  | nil => exact fun cell hc => ⟨hc, rfl⟩
  | cons inp rest ih =>
    intro cell hc
    rw [List.all_cons, Bool.and_eq_true] at hall
    have hstep := step_preserves_complete cell inp hall.1 hc
    have hrest := ih hall.2 _ hstep.1
    refine ⟨hrest.1, ?_⟩
    simp [runTrace, List.all, hstep.2, hrest.2]

/-- C5 fails on `src/worker.ts`: starting from an empty cache, one plain
request whose upstream body passes every guard but lacks
`current_weather.temperature` makes the handler surface a 200 JSON body
missing the temperature field and store that same four-field object in the
cache -- a partially-populated record is both returned and stored. -/
theorem c5_partial_record_counterexample :
    (step CacheCell.absent ⟨Event.http "GET" none, false, false,
       Upstream.resp true (some ⟨some ⟨none, "2025-06-26T12:00"⟩,
         some ⟨some ["2025-06-26T12:00"], some [0.1], some [25]⟩⟩),
       "NOW", false⟩).2.1 =
      some (jsonResp (encodeRecord ⟨none, 0.1, 25, "2025-06-26T12:00", "NOW"⟩)) ∧
    (step CacheCell.absent ⟨Event.http "GET" none, false, false,
       Upstream.resp true (some ⟨some ⟨none, "2025-06-26T12:00"⟩,
         some ⟨some ["2025-06-26T12:00"], some [0.1], some [25]⟩⟩),
       "NOW", false⟩).1 =
      CacheCell.json (encodeRecord ⟨none, 0.1, 25, "2025-06-26T12:00", "NOW"⟩) ∧
    hasRecordFields (encodeRecord ⟨none, 0.1, 25, "2025-06-26T12:00", "NOW"⟩) = false :=
  ⟨rfl, rfl, rfl⟩

/-- C5 amended: along every run of the system that starts with an empty
cache cell -- arbitrary interleavings of HTTP and timer invocations,
arbitrary upstream outcomes, TTL expiries and KV faults -- every value the
cache cell ever holds is the serialization of one WeatherRecord and every
JSON body any handler returns carries the four fields precipitation,
cloudcover, timestamp and lastUpdated; and when every upstream reading of
the run carried its temperature value, stored serializations and returned
JSON bodies carry all five fields.  Only a reading whose `temperature` is
absent -- the one field the code never checks -- leaks a four-field record;
for the hourly values the fetch step does fail closed. -/
theorem c5_record_fields_invariant_amended (trace : List StepInput) :
    (cellOK (runTrace CacheCell.absent trace).1 ∧
     ((runTrace CacheCell.absent trace).2.all respCoreOK) = true) ∧
    ((trace.all fun inp => upstreamTempOK inp.up) = true →
      cellOKComplete (runTrace CacheCell.absent trace).1 ∧
      ((runTrace CacheCell.absent trace).2.all respBodyOK) = true) :=
  ⟨runTrace_preserves trace CacheCell.absent (Or.inl rfl),
   fun hall => runTrace_preserves_complete trace hall CacheCell.absent (Or.inl rfl)⟩

/-- Witness for C5 amended at a one-request run over the spec example
response, whose reading carries its temperature. -/
theorem c5_record_fields_invariant_amended_witness :
    cellOKComplete (runTrace CacheCell.absent [⟨Event.http "GET" none, false, false,
      Upstream.resp true (some ⟨some ⟨some 23.1, "2025-06-26T12:00"⟩,
        some ⟨some ["2025-06-26T12:00", "2025-06-26T13:00"],
              some [0.1, 0.2], some [25, 35]⟩⟩),
      "NOW", false⟩]).1 ∧
    ((runTrace CacheCell.absent [⟨Event.http "GET" none, false, false,
      Upstream.resp true (some ⟨some ⟨some 23.1, "2025-06-26T12:00"⟩,
        some ⟨some ["2025-06-26T12:00", "2025-06-26T13:00"],
              some [0.1, 0.2], some [25, 35]⟩⟩),
      "NOW", false⟩]).2.all respBodyOK) = true :=
  (c5_record_fields_invariant_amended [⟨Event.http "GET" none, false, false,
      Upstream.resp true (some ⟨some ⟨some 23.1, "2025-06-26T12:00"⟩,
        some ⟨some ["2025-06-26T12:00", "2025-06-26T13:00"],
              some [0.1, 0.2], some [25, 35]⟩⟩),
      "NOW", false⟩]).2 rfl
